import Mathlib

/-!
Verification of the sentiment-classification experiment scripts main.py and
rf.py: a shallow embedding of the metric computation, the pipeline builders,
the grid-search configuration and the experiment driver, with proofs of the
specified properties.  Binary labels are modelled as Bool, with true for the
positive class (label 1); rational numbers stand for the Python floats.
-/

/-- Python str.lower() restricted to the ASCII strings these scripts use. -/
def pyLower (s : String) : String := ⟨s.data.map Char.toLower⟩

/-- Python str.upper() restricted to the ASCII strings these scripts use. -/
def pyUpper (s : String) : String := ⟨s.data.map Char.toUpper⟩

/-- Number of positions where the true and predicted label sequences take the
pair of values (a, b): one cell of sklearn's confusion matrix, whose rows are
true labels and columns predicted labels. -/
def countPairs (y_true y_pred : List Bool) (a b : Bool) : ℕ :=
  (y_true.zip y_pred).countP (fun p => p.1 == a && p.2 == b)

/-- Whether both classes occur in the union of the true and predicted labels.
sklearn's confusion_matrix is indexed by the sorted set of values occurring
in y_true or y_pred, so the matrix is 2 x 2 exactly when this holds. -/
def bothClassesPresent (y_true y_pred : List Bool) : Bool :=
  (y_true ++ y_pred).contains true && (y_true ++ y_pred).contains false

/-- sklearn accuracy_score: the fraction of positions where the prediction
equals the true label. -/
def accuracy_score (y_true y_pred : List Bool) : ℚ :=
  ((y_true.zip y_pred).countP (fun p => p.1 == p.2) : ℚ) / (y_true.length : ℚ)

/-- The metrics dictionary built by compute_metrics in main.py, without its
MCC entry: that entry involves a real square root and is modelled separately
by matthews_corrcoef below, so that everything here stays executable. -/
structure Metrics where
  TP : ℕ
  TN : ℕ
  FP : ℕ
  FN : ℕ
  Accuracy : ℚ
  ErrorRate : ℚ
  Precision : ℚ
  Recall : ℚ
  F1 : ℚ
  deriving DecidableEq

/-- The metrics dictionary compute_metrics builds after unpacking the
confusion matrix into (tn, fp, fn, tp).  Precision, recall and F1 carry
sklearn's zero_division=0 guard; sklearn's F1 is the ratio
2 TP / (2 TP + FP + FN), guarded when that denominator is 0. -/
def metricsOf (y_true y_pred : List Bool) : Metrics :=
  let tn := countPairs y_true y_pred false false
  let fp := countPairs y_true y_pred false true
  let fn := countPairs y_true y_pred true false
  let tp := countPairs y_true y_pred true true
  { TP := tp
    TN := tn
    FP := fp
    FN := fn
    Accuracy := accuracy_score y_true y_pred
    ErrorRate := 1 - accuracy_score y_true y_pred
    Precision := if tp + fp = 0 then 0 else (tp : ℚ) / ((tp : ℚ) + (fp : ℚ))
    Recall := if tp + fn = 0 then 0 else (tp : ℚ) / ((tp : ℚ) + (fn : ℚ))
    F1 := if 2 * tp + fp + fn = 0 then 0
      else (2 * tp : ℚ) / ((2 * tp : ℚ) + (fp : ℚ) + (fn : ℚ)) }

/-- compute_metrics from main.py (lines 61-80).  Its first line unpacks
confusion_matrix(y_true, y_pred).ravel() into (tn, fp, fn, tp); when the two
sequences have different lengths, or only one class occurs in their union,
that line raises inside the library (the matrix is not 2 x 2 and cannot be
unpacked into four cells), modelled here by none; otherwise the dictionary
of metricsOf is returned. -/
def compute_metrics (y_true y_pred : List Bool) : Option Metrics :=
  if y_true.length = y_pred.length ∧ bothClassesPresent y_true y_pred then
    some (metricsOf y_true y_pred)
  else none

/-- sklearn's Matthews correlation coefficient expressed on the four
confusion counts: (TP TN - FP FN) over the square root of the product of the
four marginals, and 0 when that product vanishes (undefined variance). -/
noncomputable def mcc_from_counts (tp tn fp fn : ℕ) : ℝ :=
  if (tp + fp) * (tp + fn) * (tn + fp) * (tn + fn) = 0 then 0
  else (((tp * tn : ℕ) : ℝ) - ((fp * fn : ℕ) : ℝ)) /
    Real.sqrt (((tp + fp) * (tp + fn) * (tn + fp) * (tn + fn) : ℕ) : ℝ)

/-- sklearn matthews_corrcoef on binary label sequences; this models the MCC
entry of the dictionary of compute_metrics. -/
noncomputable def matthews_corrcoef (y_true y_pred : List Bool) : ℝ :=
  mcc_from_counts (countPairs y_true y_pred true true)
    (countPairs y_true y_pred false false)
    (countPairs y_true y_pred false true)
    (countPairs y_true y_pred true false)

/-- The two vectorizer families: TfidfVectorizer and CountVectorizer. -/
inductive VectorizerKind
  | tfidf
  | bow
  deriving DecidableEq

/-- A vectorizer stage with the document-frequency thresholds that
create_text_pipeline fixes (min_df = 5 and max_df = 0.8). -/
structure Vectorizer where
  kind : VectorizerKind
  min_df : ℕ
  max_df : ℚ
  deriving DecidableEq

/-- The classifier stage of a pipeline, with its class_weight setting. -/
inductive ClassifierStage
  | randomForest (class_weight : String)
  | linearSVC (class_weight : String)
  deriving DecidableEq

/-- A two-stage sklearn Pipeline: a vectorizer stage feeding a classifier. -/
structure TextPipeline where
  vectorizer : Vectorizer
  classifier : ClassifierStage
  deriving DecidableEq

namespace rf

/-- create_text_pipeline from rf.py (lines 42-68): picks TF-IDF when the
lowercased vectorizer_type equals "tfidf" and otherwise defaults to bag of
words, both with min_df = 5 and max_df = 0.8; the classifier stage is always
a balanced random forest (there is no classifier argument), and the returned
suffix names the chosen vectorizer. -/
def create_text_pipeline (vectorizer_type : String) : TextPipeline × String :=
  if pyLower vectorizer_type = "tfidf" then
    ({ vectorizer := { kind := .tfidf, min_df := 5, max_df := 8/10 },
       classifier := .randomForest "balanced" }, "tfidf")
  else
    ({ vectorizer := { kind := .bow, min_df := 5, max_df := 8/10 },
       classifier := .randomForest "balanced" }, "bow")

end rf

namespace preproc

/-- Modelled from the spec: main.py imports its create_text_pipeline from a
module preproc that is missing from the sources; section 4.2 of the spec
describes it.  Given (classifier_type, vectorizer_type, use_stop_words) it
selects a TF-IDF or raw-count vectorizer with the fixed document-frequency
thresholds, defaulting to bag of words on an unrecognized vectorizer string,
and a class-weight-balanced linear SVM or random forest, defaulting to
random forest on an unrecognized classifier string, and returns the pipeline
with a naming suffix.  The spec fixes neither the suffix format nor the
effect of use_stop_words on the stages, so the suffix is the vectorizer name
as in rf.py and the flag does not alter the modelled stages. -/
def create_text_pipeline (classifier_type vectorizer_type : String)
    (use_stop_words : Bool) : TextPipeline × String :=
  let vect : Vectorizer :=
    if pyLower vectorizer_type = "tfidf" then
      { kind := .tfidf, min_df := 5, max_df := 8/10 }
    else
      { kind := .bow, min_df := 5, max_df := 8/10 }
  let suffix : String := if pyLower vectorizer_type = "tfidf" then "tfidf" else "bow"
  let cls : ClassifierStage :=
    if pyLower classifier_type = "svm" then .linearSVC "balanced"
    else .randomForest "balanced"
  ({ vectorizer := vect, classifier := cls }, suffix)

end preproc

/-- One hyperparameter combination enumerated by a grid search. -/
inductive GridPoint
  | svm (C : ℚ) (max_iter : ℕ)
  | rf (n_estimators : ℕ) (max_depth : Option ℕ) (min_samples_split : ℕ)
  deriving DecidableEq

/-- A parameter grid dictionary as defined in train_model in main.py: the
candidate values per hyperparameter, by classifier family. -/
inductive ParamGrid
  | svm (Cs : List ℚ) (max_iters : List ℕ)
  | rf (n_estimators : List ℕ) (max_depths : List (Option ℕ))
      (min_samples_splits : List ℕ)
  deriving DecidableEq

/-- The cross product of candidate values that GridSearchCV enumerates from
a parameter grid dictionary. -/
def ParamGrid.points : ParamGrid → List GridPoint
  | .svm cs ms => (cs.product ms).map fun p => .svm p.1 p.2
  | .rf ns ds ss => (ns.product (ds.product ss)).map fun p => .rf p.1 p.2.1 p.2.2

/-- The configuration of the GridSearchCV call in train_model. -/
structure GridSearch where
  param_grid : ParamGrid
  cv : ℕ
  scoring : String
  deriving DecidableEq

/-- The hyperparameter grid chosen in train_model (main.py lines 24-34): the
SVM grid when the lowercased classifier type is "svm", the random-forest
grid for every other classifier type. -/
def train_model_param_grid (classifier_type : String) : ParamGrid :=
  if pyLower classifier_type = "svm" then
    .svm [1/10, 1, 10] [1000, 2000]
  else
    .rf [100, 200] [none, some 10, some 20] [2, 5]

/-- The grid search constructed in train_model (main.py lines 39-46): 3-fold
cross-validation scored by accuracy over the classifier-specific grid. -/
def train_model_grid_search (classifier_type : String) : GridSearch :=
  { param_grid := train_model_param_grid classifier_type
    cv := 3
    scoring := "accuracy" }

/-- GridSearchCV's selection rule, modelled from the library semantics: among
the enumerated grid points, the one whose mean cross-validation score is
highest (the first such point on ties). -/
def bestGridPoint (g : GridSearch) (meanScore : GridPoint → ℚ) : Option GridPoint :=
  g.param_grid.points.argmax meanScore

/-- One experiment configuration dictionary from run_experiments. -/
structure ExpConfig where
  classifier : String
  vectorizer : String
  stop_words : Bool
  deriving DecidableEq

/-- The experiments list of run_experiments (main.py lines 111-123). -/
def experiments : List ExpConfig :=
  [ { classifier := "svm", vectorizer := "tfidf", stop_words := true },
    { classifier := "svm", vectorizer := "tfidf", stop_words := false },
    { classifier := "svm", vectorizer := "bow", stop_words := true },
    { classifier := "svm", vectorizer := "bow", stop_words := false },
    { classifier := "rf", vectorizer := "tfidf", stop_words := true },
    { classifier := "rf", vectorizer := "tfidf", stop_words := false },
    { classifier := "rf", vectorizer := "bow", stop_words := true },
    { classifier := "rf", vectorizer := "bow", stop_words := false } ]

/-- A result record built by run_experiments (main.py lines 147-153): the
configuration labels, the training time, and the merged metrics dictionary,
kept abstract since only its presence matters to the driver. -/
structure ResultRecord (M : Type) where
  classifierLabel : String
  vectorizerLabel : String
  stopWordsLabel : String
  trainingTime : ℚ
  metrics : M
  deriving DecidableEq

/-- run_experiments (main.py lines 106-156), with training and evaluation
abstracted into an oracle from configuration to (training time, metrics
payload): the assumption that no training or evaluation step raises makes
the oracle a total function.  Data loading does not affect the shape of the
result list.  The Stop Words label is the string "No" when the stop_words
flag is set (the flag means removal, so no stop words remain) and "Yes"
otherwise, exactly as on line 150. -/
def run_experiments {M : Type} (trainEval : ExpConfig → ℚ × M) :
    List (ResultRecord M) :=
  experiments.map fun exp =>
    { classifierLabel := pyUpper exp.classifier
      vectorizerLabel := pyUpper exp.vectorizer
      stopWordsLabel := if exp.stop_words then "No" else "Yes"
      trainingTime := (trainEval exp).1
      metrics := (trainEval exp).2 }

/-- The (classifier, vectorizer, stop-word) combination of a configuration. -/
def ExpConfig.combo (e : ExpConfig) : String × String × Bool :=
  (e.classifier, e.vectorizer, e.stop_words)

/-- The combination a result record reports, in the record's own labelling:
the uppercased family names and the stop-word-removal flag recovered from
the Stop Words string (the record says "No" exactly when stop words were
removed). -/
def ResultRecord.combo {M : Type} (r : ResultRecord M) : String × String × Bool :=
  (r.classifierLabel, r.vectorizerLabel, r.stopWordsLabel == "No")

/-- The full cross product {svm, rf} x {tfidf, bow} x {True, False}, listed
in the iteration order of the experiments list. -/
def allCombos : List (String × String × Bool) :=
  List.product ["svm", "rf"] (List.product ["tfidf", "bow"] [true, false])

/-- The spec's example scenario: a validation set of 100 examples, 55
positive then 45 negative. -/
def scenario_y_true : List Bool := List.replicate 55 true ++ List.replicate 45 false

/-- The all-positive prediction of the spec's example scenario. -/
def scenario_y_pred : List Bool := List.replicate 100 true

/-- The six SVM grid points: C in {0.1, 1.0, 10.0} crossed with max_iter in
{1000, 2000}, in the enumeration order of GridSearchCV. -/
def svmGridPoints : List GridPoint :=
  [.svm (1/10) 1000, .svm (1/10) 2000, .svm 1 1000, .svm 1 2000,
   .svm 10 1000, .svm 10 2000]

/-- The twelve random-forest grid points: n_estimators in {100, 200} crossed
with max_depth in {None, 10, 20} crossed with min_samples_split in {2, 5}. -/
def rfGridPoints : List GridPoint :=
  [.rf 100 none 2, .rf 100 none 5, .rf 100 (some 10) 2, .rf 100 (some 10) 5,
   .rf 100 (some 20) 2, .rf 100 (some 20) 5,
   .rf 200 none 2, .rf 200 none 5, .rf 200 (some 10) 2, .rf 200 (some 10) 5,
   .rf 200 (some 20) 2, .rf 200 (some 20) 5]

/-- The four cells of the confusion matrix partition the paired labels. -/
lemma countP_pairs_total (l : List (Bool × Bool)) :
    l.countP (fun p => p.1 == true && p.2 == true) +
      l.countP (fun p => p.1 == false && p.2 == false) +
      l.countP (fun p => p.1 == false && p.2 == true) +
      l.countP (fun p => p.1 == true && p.2 == false) = l.length := by
  induction l with
  | nil => simp
  | cons p l ih =>
    rcases p with ⟨a, b⟩
    cases a <;> cases b <;> simp [List.countP_cons] at ih ⊢ <;> omega

/-- Matching pairs are exactly the diagonal cells of the confusion matrix. -/
lemma countP_pairs_eq_split (l : List (Bool × Bool)) :
    l.countP (fun p => p.1 == p.2) =
      l.countP (fun p => p.1 == true && p.2 == true) +
        l.countP (fun p => p.1 == false && p.2 == false) := by
  induction l with
  | nil => simp
  | cons p l ih =>
    rcases p with ⟨a, b⟩
    cases a <;> cases b <;> simp [List.countP_cons] at ih ⊢ <;> omega

/-- On equal-length sequences, the four confusion counts sum to the length. -/
lemma countPairs_total (y_true y_pred : List Bool)
    (h : y_true.length = y_pred.length) :
    countPairs y_true y_pred true true + countPairs y_true y_pred false false +
      countPairs y_true y_pred false true + countPairs y_true y_pred true false =
      y_true.length := by
  unfold countPairs
  rw [countP_pairs_total, List.length_zip, h, Nat.min_self]

/-- The number of agreeing positions is TP + TN. -/
lemma countPairs_matches (y_true y_pred : List Bool) :
    (y_true.zip y_pred).countP (fun p => p.1 == p.2) =
      countPairs y_true y_pred true true + countPairs y_true y_pred false false := by
  unfold countPairs
  exact countP_pairs_eq_split _

lemma metricsOf_TP (y_true y_pred : List Bool) :
    (metricsOf y_true y_pred).TP = countPairs y_true y_pred true true := rfl

lemma metricsOf_TN (y_true y_pred : List Bool) :
    (metricsOf y_true y_pred).TN = countPairs y_true y_pred false false := rfl

lemma metricsOf_FP (y_true y_pred : List Bool) :
    (metricsOf y_true y_pred).FP = countPairs y_true y_pred false true := rfl

lemma metricsOf_FN (y_true y_pred : List Bool) :
    (metricsOf y_true y_pred).FN = countPairs y_true y_pred true false := rfl

lemma metricsOf_Accuracy (y_true y_pred : List Bool) :
    (metricsOf y_true y_pred).Accuracy = accuracy_score y_true y_pred := rfl

lemma metricsOf_ErrorRate (y_true y_pred : List Bool) :
    (metricsOf y_true y_pred).ErrorRate = 1 - accuracy_score y_true y_pred := rfl

lemma metricsOf_Precision (y_true y_pred : List Bool) :
    (metricsOf y_true y_pred).Precision =
      if countPairs y_true y_pred true true + countPairs y_true y_pred false true = 0
      then 0
      else (countPairs y_true y_pred true true : ℚ) /
        ((countPairs y_true y_pred true true : ℚ) +
          (countPairs y_true y_pred false true : ℚ)) := rfl

lemma metricsOf_Recall (y_true y_pred : List Bool) :
    (metricsOf y_true y_pred).Recall =
      if countPairs y_true y_pred true true + countPairs y_true y_pred true false = 0
      then 0
      else (countPairs y_true y_pred true true : ℚ) /
        ((countPairs y_true y_pred true true : ℚ) +
          (countPairs y_true y_pred true false : ℚ)) := rfl

lemma metricsOf_F1 (y_true y_pred : List Bool) :
    (metricsOf y_true y_pred).F1 =
      if 2 * countPairs y_true y_pred true true + countPairs y_true y_pred false true +
          countPairs y_true y_pred true false = 0
      then 0
      else (2 * countPairs y_true y_pred true true : ℚ) /
        ((2 * countPairs y_true y_pred true true : ℚ) +
          (countPairs y_true y_pred false true : ℚ) +
          (countPairs y_true y_pred true false : ℚ)) := rfl

/-- When the guard of compute_metrics holds it returns the metricsOf record. -/
lemma compute_metrics_pos {y_true y_pred : List Bool}
    (hlen : y_true.length = y_pred.length)
    (hb : bothClassesPresent y_true y_pred = true) :
    compute_metrics y_true y_pred = some (metricsOf y_true y_pred) := by
  unfold compute_metrics
  rw [if_pos ⟨hlen, hb⟩]

/-- A successful compute_metrics call certifies equal lengths, both classes
present, and that the record is the metricsOf record. -/
lemma compute_metrics_some_inv {y_true y_pred : List Bool} {m : Metrics}
    (h : compute_metrics y_true y_pred = some m) :
    y_true.length = y_pred.length ∧ bothClassesPresent y_true y_pred = true ∧
      m = metricsOf y_true y_pred := by
  unfold compute_metrics at h
  by_cases hg : y_true.length = y_pred.length ∧ bothClassesPresent y_true y_pred
  · rw [if_pos hg] at h
    exact ⟨hg.1, hg.2, (Option.some_inj.mp h).symm⟩
  · rw [if_neg hg] at h
    exact absurd h (by simp)

/-- Claim C2: for equal-length binary label sequences with both classes
represented in their union, compute_metrics succeeds and the four returned
confusion-matrix counts satisfy TP + TN + FP + FN = number of validation
examples. -/
theorem compute_metrics_counts_sum (y_true y_pred : List Bool)
    (hlen : y_true.length = y_pred.length)
    (hb : bothClassesPresent y_true y_pred = true) :
    compute_metrics y_true y_pred = some (metricsOf y_true y_pred) ∧
    (metricsOf y_true y_pred).TP + (metricsOf y_true y_pred).TN +
      (metricsOf y_true y_pred).FP + (metricsOf y_true y_pred).FN =
      y_true.length := by
  refine ⟨compute_metrics_pos hlen hb, ?_⟩
  rw [metricsOf_TP, metricsOf_TN, metricsOf_FP, metricsOf_FN]
  exact countPairs_total y_true y_pred hlen

theorem compute_metrics_counts_sum_witness :
    ([true, false] : List Bool).length = ([true, true] : List Bool).length ∧
    bothClassesPresent [true, false] [true, true] = true ∧
    (compute_metrics [true, false] [true, true] =
        some (metricsOf [true, false] [true, true]) ∧
      (metricsOf [true, false] [true, true]).TP +
        (metricsOf [true, false] [true, true]).TN +
        (metricsOf [true, false] [true, true]).FP +
        (metricsOf [true, false] [true, true]).FN =
        ([true, false] : List Bool).length) :=
  ⟨by decide, by decide,
    compute_metrics_counts_sum [true, false] [true, true] (by decide) (by decide)⟩

/-- Claim C3 as amended: when both classes are represented in the union of
the two equal-length binary label sequences, compute_metrics returns a
record, and each of precision, recall and F1 is exactly 0 whenever its
denominator (TP + FP, TP + FN, and precision + recall respectively) is 0. -/
theorem compute_metrics_zero_division_guard (y_true y_pred : List Bool)
    (hlen : y_true.length = y_pred.length)
    (hb : bothClassesPresent y_true y_pred = true) :
    compute_metrics y_true y_pred = some (metricsOf y_true y_pred) ∧
    ((metricsOf y_true y_pred).TP + (metricsOf y_true y_pred).FP = 0 →
      (metricsOf y_true y_pred).Precision = 0) ∧
    ((metricsOf y_true y_pred).TP + (metricsOf y_true y_pred).FN = 0 →
      (metricsOf y_true y_pred).Recall = 0) ∧
    ((metricsOf y_true y_pred).Precision + (metricsOf y_true y_pred).Recall = 0 →
      (metricsOf y_true y_pred).F1 = 0) := by
  refine ⟨compute_metrics_pos hlen hb, ?_, ?_, ?_⟩
  · rw [metricsOf_TP, metricsOf_FP, metricsOf_Precision]
    intro h0
    rw [if_pos h0]
  · rw [metricsOf_TP, metricsOf_FN, metricsOf_Recall]
    intro h0
    rw [if_pos h0]
  · rw [metricsOf_Precision, metricsOf_Recall, metricsOf_F1]
    intro hs
    set a := countPairs y_true y_pred true true with ha
    set c := countPairs y_true y_pred false true with hc
    set d := countPairs y_true y_pred true false with hd
    have htp : a = 0 := by
      by_contra hne
      have h1 : ¬ a + c = 0 := by omega
      have h2 : ¬ a + d = 0 := by omega
      rw [if_neg h1, if_neg h2] at hs
      have hp1 : 0 < (a : ℚ) / ((a : ℚ) + (c : ℚ)) := by
        apply div_pos
        · exact_mod_cast Nat.pos_of_ne_zero hne
        · exact_mod_cast Nat.pos_of_ne_zero h1
      have hp2 : 0 < (a : ℚ) / ((a : ℚ) + (d : ℚ)) := by
        apply div_pos
        · exact_mod_cast Nat.pos_of_ne_zero hne
        · exact_mod_cast Nat.pos_of_ne_zero h2
      linarith
    by_cases hcd : 2 * a + c + d = 0
    · rw [if_pos hcd]
    · rw [if_neg hcd, htp]
      norm_num

theorem compute_metrics_zero_division_guard_witness :
    ([true, false] : List Bool).length = ([false, false] : List Bool).length ∧
    bothClassesPresent [true, false] [false, false] = true ∧
    (compute_metrics [true, false] [false, false] =
        some (metricsOf [true, false] [false, false]) ∧
      ((metricsOf [true, false] [false, false]).TP +
          (metricsOf [true, false] [false, false]).FP = 0 →
        (metricsOf [true, false] [false, false]).Precision = 0) ∧
      ((metricsOf [true, false] [false, false]).TP +
          (metricsOf [true, false] [false, false]).FN = 0 →
        (metricsOf [true, false] [false, false]).Recall = 0) ∧
      ((metricsOf [true, false] [false, false]).Precision +
          (metricsOf [true, false] [false, false]).Recall = 0 →
        (metricsOf [true, false] [false, false]).F1 = 0)) :=
  ⟨by decide, by decide,
    compute_metrics_zero_division_guard [true, false] [false, false]
      (by decide) (by decide)⟩

/-- Claim C3 fails as stated: y_true = y_pred = [0] is an equal-length binary
pair whose precision denominator TP + FP is 0, yet compute_metrics raises at
the confusion-matrix unpacking (only one class occurs in the union, so the
matrix is 1 x 1 and cannot be unpacked into four cells), modelled by none,
instead of returning a record with precision 0. -/
theorem compute_metrics_single_class_raises :
    countPairs [false] [false] true true + countPairs [false] [false] false true = 0 ∧
    compute_metrics [false] [false] = none := by decide

/-- Claim C5: whenever compute_metrics returns a record, the accuracy it
reports equals (TP + TN) / (TP + TN + FP + FN) computed from the counts of
the same record (here exactly, so in particular to floating-point
tolerance). -/
theorem compute_metrics_accuracy_from_counts (y_true y_pred : List Bool) (m : Metrics)
    (h : compute_metrics y_true y_pred = some m) :
    m.Accuracy = ((m.TP : ℚ) + (m.TN : ℚ)) /
      ((m.TP : ℚ) + (m.TN : ℚ) + (m.FP : ℚ) + (m.FN : ℚ)) := by
  obtain ⟨hlen, hb, rfl⟩ := compute_metrics_some_inv h
  rw [metricsOf_Accuracy, metricsOf_TP, metricsOf_TN, metricsOf_FP, metricsOf_FN]
  unfold accuracy_score
  rw [countPairs_matches, ← countPairs_total y_true y_pred hlen]
  push_cast
  ring

theorem compute_metrics_accuracy_from_counts_witness :
    compute_metrics [true, false] [true, true] =
      some (metricsOf [true, false] [true, true]) ∧
    (metricsOf [true, false] [true, true]).Accuracy =
      (((metricsOf [true, false] [true, true]).TP : ℚ) +
          ((metricsOf [true, false] [true, true]).TN : ℚ)) /
        (((metricsOf [true, false] [true, true]).TP : ℚ) +
          ((metricsOf [true, false] [true, true]).TN : ℚ) +
          ((metricsOf [true, false] [true, true]).FP : ℚ) +
          ((metricsOf [true, false] [true, true]).FN : ℚ)) :=
  ⟨compute_metrics_pos (by decide) (by decide),
    compute_metrics_accuracy_from_counts [true, false] [true, true] _
      (compute_metrics_pos (by decide) (by decide))⟩

/-- Claim C8: whenever compute_metrics returns a record, the reported
accuracy and error rate sum to 1 exactly, the error rate being one minus the
accuracy of the same prediction. -/
theorem compute_metrics_error_rate_complement (y_true y_pred : List Bool)
    (m : Metrics) (h : compute_metrics y_true y_pred = some m) :
    m.Accuracy + m.ErrorRate = 1 := by
  obtain ⟨hlen, hb, rfl⟩ := compute_metrics_some_inv h
  rw [metricsOf_Accuracy, metricsOf_ErrorRate]
  ring

theorem compute_metrics_error_rate_complement_witness :
    compute_metrics [true, false] [true, true] =
      some (metricsOf [true, false] [true, true]) ∧
    (metricsOf [true, false] [true, true]).Accuracy +
      (metricsOf [true, false] [true, true]).ErrorRate = 1 :=
  ⟨compute_metrics_pos (by decide) (by decide),
    compute_metrics_error_rate_complement [true, false] [true, true] _
      (compute_metrics_pos (by decide) (by decide))⟩

/-- Claim C4: on the spec's example scenario (100 validation examples, 55
positive and 45 negative, all-positive predictions) compute_metrics reports
TP = 55, FN = 0, FP = 45, TN = 0, accuracy 0.55, precision 0.55, recall 1,
and F1 = 110/155 = 22/31 = 2 x 0.55 / 1.55, about 0.7097 and within 0.001 of
0.709; the Matthews coefficient hits the undefined-variance guard and is 0. -/
theorem compute_metrics_scenario :
    (compute_metrics scenario_y_true scenario_y_pred =
        some (metricsOf scenario_y_true scenario_y_pred) ∧
      (metricsOf scenario_y_true scenario_y_pred).TP = 55 ∧
      (metricsOf scenario_y_true scenario_y_pred).FN = 0 ∧
      (metricsOf scenario_y_true scenario_y_pred).FP = 45 ∧
      (metricsOf scenario_y_true scenario_y_pred).TN = 0 ∧
      (metricsOf scenario_y_true scenario_y_pred).Accuracy = 55/100 ∧
      (metricsOf scenario_y_true scenario_y_pred).Precision = 55/100 ∧
      (metricsOf scenario_y_true scenario_y_pred).Recall = 1 ∧
      (metricsOf scenario_y_true scenario_y_pred).F1 = 22/31 ∧
      |(metricsOf scenario_y_true scenario_y_pred).F1 - 709/1000| < 1/1000) ∧
    matthews_corrcoef scenario_y_true scenario_y_pred = 0 := by
  have htt : countPairs scenario_y_true scenario_y_pred true true = 55 := by decide
  have hff : countPairs scenario_y_true scenario_y_pred false false = 0 := by decide
  have hft : countPairs scenario_y_true scenario_y_pred false true = 45 := by decide
  have htf : countPairs scenario_y_true scenario_y_pred true false = 0 := by decide
  have hmatch : (scenario_y_true.zip scenario_y_pred).countP (fun p => p.1 == p.2) = 55 := by
    decide
  have hlen : scenario_y_true.length = 100 := by decide
  refine ⟨⟨compute_metrics_pos (by decide) (by decide),
    ?_, ?_, ?_, ?_, ?_, ?_, ?_, ?_, ?_⟩, ?_⟩
  · rw [metricsOf_TP, htt]
  · rw [metricsOf_FN, htf]
  · rw [metricsOf_FP, hft]
  · rw [metricsOf_TN, hff]
  · rw [metricsOf_Accuracy]
    unfold accuracy_score
    rw [hmatch, hlen]
    norm_num
  · rw [metricsOf_Precision, htt, hft]
    norm_num
  · rw [metricsOf_Recall, htt, htf]
    norm_num
  · rw [metricsOf_F1, htt, hft, htf]
    norm_num
  · rw [metricsOf_F1, htt, hft, htf]
    norm_num
    rw [abs_of_pos] <;> norm_num
  · unfold matthews_corrcoef
    rw [htt, hff, hft, htf]
    unfold mcc_from_counts
    norm_num

/-- Claim C1: for any training/evaluation oracle (no step raises), the
driver returns exactly 8 records; the experiments list enumerates the full
cross product {svm, rf} x {tfidf, bow} x {True, False} without duplicates or
omissions; the records' reported combinations follow the experiments list in
iteration order and are pairwise distinct. -/
theorem run_experiments_covers_all_combos {M : Type} (trainEval : ExpConfig → ℚ × M) :
    (run_experiments trainEval).length = 8 ∧
    experiments.map ExpConfig.combo = allCombos ∧
    allCombos.Nodup ∧
    (run_experiments trainEval).map ResultRecord.combo =
      experiments.map (fun e => (pyUpper e.classifier, pyUpper e.vectorizer, e.stop_words)) ∧
    ((run_experiments trainEval).map ResultRecord.combo).Nodup := by
  have hmap : (run_experiments trainEval).map ResultRecord.combo =
      experiments.map (fun e => (pyUpper e.classifier, pyUpper e.vectorizer, e.stop_words)) := by
    unfold run_experiments
    rw [List.map_map]
    refine List.map_congr_left ?_
    intro e he
    rcases e with ⟨c, v, s⟩
    cases s <;> rfl
  refine ⟨?_, by decide, by decide, hmap, ?_⟩
  · unfold run_experiments
    rw [List.length_map]
    rfl
  · rw [hmap]
    decide

/-- Claim C9: pairing each configuration with the record built for it, the
record's Stop Words string is "No" exactly when the configuration's
stop_words flag is True and "Yes" exactly when it is False: the flag means
stop-word removal, so the record reports whether stop words remain. -/
theorem run_experiments_stop_words_label {M : Type} (trainEval : ExpConfig → ℚ × M)
    (e : ExpConfig) (r : ResultRecord M)
    (h : (e, r) ∈ experiments.zip (run_experiments trainEval)) :
    (r.stopWordsLabel = "No" ↔ e.stop_words = true) ∧
    (r.stopWordsLabel = "Yes" ↔ e.stop_words = false) := by
  unfold run_experiments experiments at h
  simp only [List.map_cons, List.map_nil, List.zip_cons_cons, List.zip_nil_right,
    List.mem_cons, List.not_mem_nil, or_false] at h
  rcases h with h | h | h | h | h | h | h | h <;>
    rw [Prod.mk.injEq] at h <;> obtain ⟨rfl, rfl⟩ := h <;> exact ⟨by simp, by simp⟩

theorem run_experiments_stop_words_label_witness :
    ((({ classifier := "svm", vectorizer := "tfidf", stop_words := true } : ExpConfig),
        ({ classifierLabel := "SVM", vectorizerLabel := "TFIDF", stopWordsLabel := "No",
            trainingTime := 0, metrics := () } : ResultRecord Unit)) ∈
      experiments.zip (run_experiments (fun _ => ((0 : ℚ), ())))) ∧
    ((({ classifierLabel := "SVM", vectorizerLabel := "TFIDF", stopWordsLabel := "No",
          trainingTime := 0, metrics := () } : ResultRecord Unit).stopWordsLabel = "No" ↔
        ({ classifier := "svm", vectorizer := "tfidf", stop_words := true } : ExpConfig).stop_words = true) ∧
      (({ classifierLabel := "SVM", vectorizerLabel := "TFIDF", stopWordsLabel := "No",
          trainingTime := 0, metrics := () } : ResultRecord Unit).stopWordsLabel = "Yes" ↔
        ({ classifier := "svm", vectorizer := "tfidf", stop_words := true } : ExpConfig).stop_words = false)) :=
  ⟨by decide, run_experiments_stop_words_label (fun _ => ((0 : ℚ), ())) _ _ (by decide)⟩

/-- Claim C6: a vectorizer string that does not lowercase to "tfidf"
deterministically selects the bag-of-words vectorizer with naming suffix
"bow", both in the builder of rf.py and in the spec-modelled builder of
preproc; and a classifier string that is not recognized (does not lowercase
to "svm") makes the modelled builder select a random forest. -/
theorem create_text_pipeline_fallback_defaults (vt ct : String) (s : Bool)
    (hv : pyLower vt ≠ "tfidf") (hc : pyLower ct ≠ "svm") :
    (rf.create_text_pipeline vt).1.vectorizer.kind = VectorizerKind.bow ∧
    (rf.create_text_pipeline vt).2 = "bow" ∧
    (preproc.create_text_pipeline ct vt s).1.vectorizer.kind = VectorizerKind.bow ∧
    (preproc.create_text_pipeline ct vt s).2 = "bow" ∧
    (preproc.create_text_pipeline ct vt s).1.classifier =
      ClassifierStage.randomForest "balanced" := by
  unfold rf.create_text_pipeline preproc.create_text_pipeline
  simp [hv, hc]

theorem create_text_pipeline_fallback_defaults_witness :
    pyLower "word2vec" ≠ "tfidf" ∧ pyLower "xgboost" ≠ "svm" ∧
    ((rf.create_text_pipeline "word2vec").1.vectorizer.kind = VectorizerKind.bow ∧
      (rf.create_text_pipeline "word2vec").2 = "bow" ∧
      (preproc.create_text_pipeline "xgboost" "word2vec" true).1.vectorizer.kind =
        VectorizerKind.bow ∧
      (preproc.create_text_pipeline "xgboost" "word2vec" true).2 = "bow" ∧
      (preproc.create_text_pipeline "xgboost" "word2vec" true).1.classifier =
        ClassifierStage.randomForest "balanced") :=
  ⟨by decide, by decide,
    create_text_pipeline_fallback_defaults "word2vec" "xgboost" true
      (by decide) (by decide)⟩

/-- Claim C7: train_model configures a 3-fold grid search scored by accuracy
whose enumerated grid is C x max_iter = {0.1, 1.0, 10.0} x {1000, 2000} when
the classifier type lowercases to "svm" and n_estimators x max_depth x
min_samples_split = {100, 200} x {None, 10, 20} x {2, 5} for every other
classifier type; the modelled selection rule returns a grid point of maximal
mean cross-validation score. -/
theorem train_model_grid_spec (classifier_type : String) (meanScore : GridPoint → ℚ) :
    (train_model_grid_search classifier_type).cv = 3 ∧
    (train_model_grid_search classifier_type).scoring = "accuracy" ∧
    (train_model_grid_search classifier_type).param_grid.points =
      (if pyLower classifier_type = "svm" then svmGridPoints else rfGridPoints) ∧
    ∃ p, bestGridPoint (train_model_grid_search classifier_type) meanScore = some p ∧
      p ∈ (train_model_grid_search classifier_type).param_grid.points ∧
      ∀ q ∈ (train_model_grid_search classifier_type).param_grid.points,
        meanScore q ≤ meanScore p := by
  have hpts : (train_model_grid_search classifier_type).param_grid.points =
      (if pyLower classifier_type = "svm" then svmGridPoints else rfGridPoints) := by
    by_cases h : pyLower classifier_type = "svm" <;>
      simp [train_model_grid_search, train_model_param_grid, h, ParamGrid.points,
        svmGridPoints, rfGridPoints, List.product]
  have hne : (train_model_grid_search classifier_type).param_grid.points ≠ [] := by
    rw [hpts]
    by_cases h : pyLower classifier_type = "svm" <;> simp [h, svmGridPoints, rfGridPoints]
  refine ⟨rfl, rfl, hpts, ?_⟩
  obtain ⟨p, hp⟩ : ∃ p,
      (train_model_grid_search classifier_type).param_grid.points.argmax meanScore = some p := by
    cases hh : (train_model_grid_search classifier_type).param_grid.points.argmax meanScore with
    | none => exact absurd (List.argmax_eq_none.mp hh) hne
    | some p => exact ⟨p, rfl⟩
  exact ⟨p, hp, List.argmax_mem (Option.mem_def.mpr hp),
    fun q hq => List.le_of_mem_argmax hq (Option.mem_def.mpr hp)⟩

/-- Claim C10: for every vectorizer type string, the pipeline of rf.py is a
two-stage pipeline whose classifier stage is a random forest with balanced
class weights and whose vectorizer stage has min_df 5 and max_df 0.8; the
builder takes no classifier choice, so this holds for every argument. -/
theorem rf_create_text_pipeline_invariants (vt : String) :
    (rf.create_text_pipeline vt).1.classifier = ClassifierStage.randomForest "balanced" ∧
    (rf.create_text_pipeline vt).1.vectorizer.min_df = 5 ∧
    (rf.create_text_pipeline vt).1.vectorizer.max_df = 8/10 := by
  unfold rf.create_text_pipeline
  by_cases h : pyLower vt = "tfidf" <;> simp [h]
